import Mathlib

/-!
Verification of the hydra_render_farm coordination core.

This file is a shallow embedding of the parts of the repository that the
checked claims are about:

* `hydra_farm/database/hydra_db.py` — the row-mapped data-access layer
  (`AbstractHydraTable`), the status vocabulary (`HydraStatus`), and the
  entity operations `HydraRenderNode.find_render_task`,
  `HydraRenderJob.update_job_status`, `HydraRenderJob.archive`,
  `HydraRenderTask.kill`.
* `hydra_farm/render_node.py` — the worker (`RenderTCPServer`):
  `launch_render_task` completion, `kill_current_task`, `handle_connection`.
* `hydra_farm/networking/connections.py` and `servers.py` — the TCP
  request/response objects and the dispatch in `_HydraTCPHandler.handle`.

Database rows are modelled as Lean structures, the database as lists of
rows, timestamps as integers, and Python values as small inductive types.
Each embedded definition carries a comment naming the Python function it
transcribes.
-/

namespace HydraFarm

/-- `HydraStatus` (hydra_db.py): the shared single-character status alphabet. -/
inductive HydraStatus
  | started | ready | paused | finished | killed | error | crashed | timeout
  | idle | offline | pending | getoff
  deriving DecidableEq, Repr

/-- The `value` of each `HydraStatus` member, exactly as in the source. -/
def HydraStatus.value : HydraStatus → Char
  | .started => 'S'
  | .ready => 'R'
  | .paused => 'U'
  | .finished => 'F'
  | .killed => 'K'
  | .error => 'E'
  | .crashed => 'C'
  | .timeout => 'T'
  | .idle => 'I'
  | .offline => 'O'
  | .pending => 'P'
  | .getoff => 'G'

/-- The one-character string form of a status, as stored in the database. -/
def HydraStatus.valueStr (s : HydraStatus) : String := String.mk [s.value]

/-- A Python value as it appears on a table handle or in a database cell.
`enum` is a `HydraStatus` enum object; every other case is already a plain
database value. -/
inductive PyVal
  | str (s : String)
  | int (n : Int)
  | enum (e : HydraStatus)
  | null
  deriving DecidableEq, Repr

/-- The Enum-to-value conversion performed by `AbstractHydraTable.__setattr__`
and `AbstractHydraTable.update_attr`: `if isinstance(value, Enum): value = value.value`. -/
def coerceEnum : PyVal → PyVal
  | .enum e => .str e.valueStr
  | v => v

/-- Overwrite key `k` in an association-list dictionary. -/
def dictSet (d : List (String × PyVal)) (k : String) (v : PyVal) : List (String × PyVal) :=
  (k, v) :: d.eraseP (fun kv => kv.1 == k)

/-- An in-memory row handle (`AbstractHydraTable`): `columns` is the table's
column set, `attrs` the attribute dictionary (the populated columns), and
`dirty` the `_dirty` set of column names pending an UPDATE. -/
structure Handle where
  columns : List String
  attrs : List (String × PyVal)
  dirty : List String
  deriving DecidableEq, Repr

/-- `AbstractHydraTable.__setattr__`: converts an Enum to its value, records
the column in `_dirty` when it belongs to the table, and stores the value. -/
def Handle.setattr (h : Handle) (k : String) (v : PyVal) : Handle :=
  let v := coerceEnum v
  { h with
    attrs := dictSet h.attrs k v
    dirty := if k ∈ h.columns then (if k ∈ h.dirty then h.dirty else k :: h.dirty) else h.dirty }

/-- `AbstractHydraTable.set_no_dirty`: set an attribute, then discard it from
`_dirty`. -/
def Handle.setNoDirty (h : Handle) (k : String) (v : PyVal) : Handle :=
  let h := h.setattr k v
  { h with dirty := h.dirty.filter (fun d => d != k) }

/-- `AbstractHydraTable.do_refresh`: write each fetched column back through
`setattr` (keys not in the column set are only logged). -/
def Handle.doRefresh (h : Handle) (data : List (String × PyVal)) : Handle :=
  data.foldl (fun h kv => if kv.1 ∈ h.columns then h.setattr kv.1 kv.2 else h) h

/-- `AbstractHydraTable.refresh`: the source hardcodes `columns = tuple()`,
converts that empty tuple to a set and adds only the primary key, so the
SELECT issued reads back nothing but the primary key column.  `dbrow` is the
database's current image of the row. -/
def Handle.refresh (h : Handle) (pk : String) (dbrow : List (String × PyVal)) : Handle :=
  let selected : List String := [pk]
  let result : List (String × PyVal) :=
    selected.filterMap (fun c => (dbrow.lookup c).map (fun v => (c, v)))
  h.doRefresh result

/-- Refresh as the specification describes the default behaviour: re-read
every currently populated column of the row from the database.  Kept for
comparison with `Handle.refresh`, which is what the code does. -/
def Handle.refreshClaimed (h : Handle) (dbrow : List (String × PyVal)) : Handle :=
  let selected : List String := h.attrs.map Prod.fst
  let result : List (String × PyVal) :=
    selected.filterMap (fun c => (dbrow.lookup c).map (fun v => (c, v)))
  h.doRefresh result

/-- `AbstractHydraTable.update_attr`: reject unknown columns, convert an Enum
argument to its value, issue the single-column UPDATE against the row, and
mark the handle clean for that column.  Returns (success, handle, row). -/
def Handle.updateAttr (h : Handle) (dbrow : List (String × PyVal)) (attr : String)
    (v : PyVal) : Bool × Handle × List (String × PyVal) :=
  if attr ∈ h.columns then
    let v := coerceEnum v
    let dbrow := dictSet dbrow attr v
    (true, h.setNoDirty attr v, dbrow)
  else
    (false, h, dbrow)

/-! ## Job aggregation: `HydraRenderJob.update_job_status` -/

/-- A row of `hydra.jobs`, restricted to the columns the claims touch.
`mpf` is modelled as an exact rational number of seconds (the source holds a
`datetime.timedelta`). -/
structure JobRow where
  id : Int
  status : Char
  attempts : Int
  max_attempts : Int
  failed_nodes : String
  requirements : String
  archived : Int
  max_nodes : Int
  task_done : Int
  mpf : Option ℚ
  deriving DecidableEq, Repr

/-- `HydraRenderJob.update_job_status`: recompute `task_done`, fold in an
optional failed node, pick the new status by the hard-coded precedence, and
average in an optional new `mpf`.  `sibling_statuses` is the list of the
job's task statuses as fetched by `get_tasks(('status',))`. -/
def update_job_status (job : JobRow) (sibling_statuses : List Char)
    (failed_node : Option String) (mpf : Option ℚ) : JobRow :=
  let task_done : Int := ((sibling_statuses.filter (fun s => s == 'F')).length : Int)
  let attempts : Int :=
    match failed_node with
    | some _ => job.attempts + 1
    | none => job.attempts
  let failed_nodes : String :=
    match failed_node with
    | some fn => job.failed_nodes ++ fn ++ " "
    | none => job.failed_nodes
  let status : Char :=
    if attempts ≥ job.max_attempts then 'E'
    else if sibling_statuses.all (fun s => s == 'F') then 'F'
    else if sibling_statuses.any (fun s => s == 'S') then 'S'
    else if sibling_statuses.any (fun s => s == 'R') then 'R'
    else if sibling_statuses.any (fun s => s == 'E') then 'E'
    else 'U'
  let mpf : Option ℚ :=
    match mpf with
    | some m =>
      match job.mpf with
      | some cur => some ((cur + m) / 2)
      | none => some m
    | none => job.mpf
  { job with status := status, attempts := attempts, failed_nodes := failed_nodes,
             task_done := task_done, mpf := mpf }

/-- The job-status precedence exactly as the specification words it, as a
function of the job's attempt counters and its tasks' statuses. -/
def job_status_claimed (attempts max_attempts : Int) (sibling_statuses : List Char) : Char :=
  if attempts ≥ max_attempts then 'E'
  else if sibling_statuses.all (fun s => s == 'F') then 'F'
  else if sibling_statuses.any (fun s => s == 'S') then 'S'
  else if sibling_statuses.any (fun s => s == 'R') then 'R'
  else if sibling_statuses.any (fun s => s == 'E') then 'E'
  else 'U'

/-! ## Worker-side kill: `RenderTCPServer.kill_current_task` -/

/-- `RenderTCPServer.kill_current_task`.  `has_child` is whether both
`child_process` and `ps_util_proc` are set, `proc_running` whether the psutil
handle still finds the PID, `parent_dies` whether the parent is gone after
terminate/kill and the two 15 s waits, `children_die` the same for every
descendant.  The method starts from `self.child_killed = 1`, overwrites it
with `-1` when the parent survives, and finally ADDS `-10` when any child
survives. -/
def kill_current_task (has_child proc_running parent_dies children_die : Bool) : Int :=
  if !has_child then 1
  else if !proc_running then 1
  else
    let child_killed : Int := if parent_dies then 1 else -1
    if children_die then child_killed else child_killed + (-10)

/-- The return codes as the claim (and the method's own docstring) state
them: `1` success, `-1` parent not killed, `-9` children not killed, `-10`
both not killed. -/
def kill_return_claimed (parent_dies children_die : Bool) : Int :=
  if parent_dies && children_die then 1
  else if !parent_dies && children_die then -1
  else if parent_dies && !children_die then -9
  else -10

/-! ## Job archiving: `HydraRenderJob.archive` -/

/-- A Python argument to `archive`: Python `bool` is a subclass of `int`. -/
inductive PyArg
  | int (n : Int)
  | bool (b : Bool)
  | str (s : String)
  deriving DecidableEq, Repr

/-- Python `str(mode)` for the argument kinds we model. -/
def PyArg.pyStr : PyArg → String
  | .int n => toString n
  | .bool b => if b then "True" else "False"
  | .str s => s

/-- Python `isinstance(mode, int)`: true for ints and bools. -/
def PyArg.isInt : PyArg → Bool
  | .str _ => false
  | _ => true

/-- Python `str(mode).lower().startswith("t")`: only the first character is
relevant, compared case-insensitively. -/
def lower_starts_with_t (s : String) : Bool :=
  match s.data with
  | c :: _ => c.toLower == 't'
  | [] => false

/-- `HydraRenderJob.archive`: the value stored into the `archived` column.
The source only applies the truthy-string rule when the argument is not an
`int`; an int (or bool) is passed to `update_attr` unchanged. -/
def archive_stored (mode : PyArg) : PyArg :=
  if mode.isInt then mode
  else if lower_starts_with_t mode.pyStr then .int 1 else .int 0

/-- The stored value as the claim states it: 1 exactly when the string form
starts with a `t`/`T`, else 0, for every argument. -/
def archive_claimed (mode : PyArg) : Int :=
  if lower_starts_with_t mode.pyStr then 1 else 0

/-! ## Wire protocol: `HydraResponse`, `send_request`, `_HydraTCPHandler.handle` -/

/-- A JSON value carried in a request or response field. -/
inductive JVal
  | str (s : String)
  | bool (b : Bool)
  | num (n : Int)
  deriving DecidableEq, Repr

/-- `HydraResponse` (connections.py): a `msg` and an `err` field. -/
structure HydraResponse where
  msg : JVal
  err : JVal
  deriving DecidableEq, Repr

/-- `HydraResponse.from_args`: absent `msg` defaults to `""`, absent `err`
defaults to `True`. -/
def HydraResponse.from_args (msg : Option JVal) (err : Option JVal) : HydraResponse :=
  { msg := msg.getD (.str ""), err := err.getD (.bool true) }

/-- `HydraResponse.from_bytes`: decode a JSON object; `data.get('msg', '')`
and `data.get('err', True)`. -/
def HydraResponse.from_bytes (data : List (String × JVal)) : HydraResponse :=
  { msg := (data.lookup "msg").getD (.str ""), err := (data.lookup "err").getD (.bool true) }

/-- The outcome of the socket exchange inside `send_request`: the connection
timed out, a reply was read and parsed, parsing raised `EOFError`, a
`socket.error` was raised, or some other exception escaped. -/
inductive TcpOutcome
  | connect_timeout
  | reply (data : List (String × JVal))
  | reply_eof
  | socket_error
  | unhandled (e : String)
  deriving DecidableEq, Repr

/-- `send_request` (connections.py): the response handed back to the caller
for each exchange outcome.  Every locally synthesized response is built by
`HydraResponse.from_args` with the `err` argument omitted. -/
def send_request : TcpOutcome → HydraResponse
  | .connect_timeout => HydraResponse.from_args (some (.str "TimeoutError")) none
  | .reply d => HydraResponse.from_bytes d
  | .reply_eof => HydraResponse.from_args (some (.str "EOF Error")) none
  | .socket_error => HydraResponse.from_args (some (.str "Socket Error")) none
  | .unhandled e => HydraResponse.from_args (some (.str ("Unhandled Exception: " ++ e))) none

/-- `HydraRequest` (connections.py). -/
structure HydraRequest where
  cmd : String
  args : List JVal
  kwargs : List (String × JVal)
  deriving DecidableEq, Repr

/-- `_HydraTCPHandler.handle` (servers.py).  The handler argument models
`getattr(self.server, 'handler', None)`; a handler returning `none` models
`handle_connection` raising (the wrapper answers with an
`Unhandled Exception` response).  In the no-handler case, `echo` answers its
first argument with `err = False`; `request.args[0]` on an empty tuple raises
`IndexError`, which the `except KeyError` clause does not catch, so no
response is written (result `none`).  Any other command is answered by
`HydraResponse.from_args` with `err` omitted, hence `err = True`. -/
def tcp_handle (handler : Option (HydraRequest → Option HydraResponse))
    (req : HydraRequest) : Option HydraResponse :=
  match handler with
  | some h =>
    match h req with
    | some resp => some resp
    | none => some (HydraResponse.from_args (some (.str "Unhandled Exception: ...")) none)
  | none =>
    if req.cmd = "echo" then
      match req.args with
      | a :: _ => some (HydraResponse.from_args (some a) (some (.bool false)))
      | [] => none
    else
      some (HydraResponse.from_args (some (.str "_HydraSocketServer has no handler!")) none)

/-- The handler `_HydraTCPHandler.handle` finds on a running worker.  The
worker assigns itself to the thread wrapper (`self.server_thread.handler =
self` in render_node.py), but `handle` reads the attribute from the
`_HydraSocketServer` object (`getattr(self.server, 'handler', None)`), and
nothing in the repository ever sets `handler` on the socket server, so the
lookup always falls back to `None`. -/
def worker_server_handler : Option (HydraRequest → Option HydraResponse) := none

/-! ## Entity rows -/

/-- A row of `hydra.tasks`, restricted to the columns the claims touch;
timestamps are integers, `mpf` an integral number of seconds. -/
structure TaskRow where
  id : Int
  job_id : Int
  status : Char
  priority : Int
  host : Option String
  start_time : Option Int
  end_time : Option Int
  exit_code : Option Int
  mpf : Option Int
  deriving DecidableEq, Repr

/-- A row of `hydra.render_nodes`, restricted to the columns the claims
touch. -/
structure NodeRow where
  id : Int
  host : String
  status : Char
  min_priority : Int
  capabilities : String
  task_id : Option Int
  deriving DecidableEq, Repr

/-! ## SQL LIKE matching -/

/-- All contiguous tail segments of `s`, longest first (`s` itself down to
`[]`). -/
def tails : List Char → List (List Char)
  | [] => [[]]
  | c :: s => (c :: s) :: tails s

/-- SQL `LIKE` matching over character lists: `%` matches any (possibly
empty) sequence — expressed as trying every tail split — `_` matches exactly
one character, and any other pattern character matches itself.  Collation is
modelled as binary (case-sensitive) comparison. -/
def sqlLike : List Char → List Char → Bool
  | [], s => s.isEmpty
  | c :: p, s =>
    if c = '%' then
      (tails s).any (fun t => sqlLike p t)
    else
      match s with
      | [] => false
      | d :: s' => (c == '_' || c == d) && sqlLike p s'

/-- `p` begins `s`. -/
def beginsWith (p s : List Char) : Prop := ∃ t, s = p ++ t

/-- `p` occurs contiguously inside `s`. -/
def containsSeq (p s : List Char) : Prop := ∃ l r, s = l ++ (p ++ r)

/-- `p` holds no SQL wildcard character. -/
def wildcardFree (p : List Char) : Prop := ∀ c ∈ p, c ≠ '%' ∧ c ≠ '_'

instance (p : List Char) : Decidable (wildcardFree p) := by
  unfold wildcardFree
  infer_instance

/-- The pattern `'%{}%'.format(host)` used by the claim query's
`J.failed_nodes NOT LIKE %s` condition. -/
def likeContains (needle hay : String) : Bool :=
  sqlLike ('%' :: (needle.data ++ ['%'])) hay.data

/-! ## The dispatch claim query: `HydraRenderNode.find_render_task` -/

/-- The tasks and jobs tables as the claim query sees them. -/
structure FarmDB where
  tasks : List TaskRow
  jobs : List JobRow
  deriving DecidableEq, Repr

/-- The WHERE clause of the claim query, one row pair at a time:
`T.status = %s` (READY), `J.archived = 0`, `T.priority > %s`
(the node's `min_priority`), `J.max_attempts > J.attempts`,
`J.failed_nodes NOT LIKE '%<host>%'`, and `%s LIKE J.requirements` with the
node's `capabilities` string as the matched subject. -/
def claim_filter (node : NodeRow) (t : TaskRow) (j : JobRow) : Bool :=
  t.status == 'R'
    && j.archived == 0
    && decide (node.min_priority < t.priority)
    && decide (j.attempts < j.max_attempts)
    && !(likeContains node.host j.failed_nodes)
    && sqlLike j.requirements.data node.capabilities.data

/-- `FROM hydra.tasks T JOIN (SELECT … FROM hydra.jobs) J ON (T.job_id = J.id)
WHERE …`: every task paired with every job row whose `id` equals its
`job_id`, restricted by the WHERE clause. -/
def join_candidates (db : FarmDB) (node : NodeRow) : List (TaskRow × JobRow) :=
  db.tasks.flatMap (fun t =>
    (db.jobs.filter (fun j => j.id == t.job_id)).filterMap
      (fun j => if claim_filter node t j then some (t, j) else none))

/-- `ORDER BY T.priority DESC, T.id ASC`: does candidate `c` come strictly
before candidate `a`? -/
def order_lt (c a : TaskRow × JobRow) : Bool :=
  decide (a.1.priority < c.1.priority)
    || (decide (c.1.priority = a.1.priority) && decide (c.1.id < a.1.id))

/-- One step of scanning for the first row in the ORDER BY: keep the
earlier candidate unless the new one strictly precedes it. -/
def pick_first (acc : Option (TaskRow × JobRow)) (c : TaskRow × JobRow) :
    Option (TaskRow × JobRow) :=
  match acc with
  | none => some c
  | some a => if order_lt c a then some c else some a

/-- `ORDER BY … LIMIT 1`: the first row of the ordered candidate list
(earlier rows win full-key ties, which SQL leaves unspecified). -/
def select_first (l : List (TaskRow × JobRow)) : Option (TaskRow × JobRow) :=
  l.foldl pick_first none

/-- `HydraRenderNode.find_render_task`: run the claim query; on a hit, mark
the task STARTED with `host = this node` and `start_time = now()`, the job
STARTED, and this node STARTED with `task_id = task.id`, all flushed inside
the single transaction opened around the query.  Returns the Python return
value together with the post-transaction database and node row. -/
def find_render_task (db : FarmDB) (node : NodeRow) (now : Int) :
    Option (JobRow × TaskRow) × FarmDB × NodeRow :=
  match select_first (join_candidates db node) with
  | none => (none, db, node)
  | some (t, j) =>
    let t' := { t with status := 'S', host := some node.host, start_time := some now }
    let j' := { j with status := 'S' }
    let node' := { node with status := 'S', task_id := some t.id }
    (some (j', t'),
      { tasks := db.tasks.map (fun r => if r.id == t.id then t' else r)
        jobs := db.jobs.map (fun r => if r.id == j.id then j' else r) },
      node')

/-- The property C2 asserts of a successful dispatch claim on
`find_render_task db node now` returning `some (j', t')`: some task/job pair
of the database passes every stated filter, no candidate precedes it in the
`priority DESC, id ASC` order, and the returned rows and post-state are the
STARTED updates of that pair and of the node. -/
def find_render_task_claim (db : FarmDB) (node : NodeRow) (now : Int)
    (j' : JobRow) (t' : TaskRow) : Prop :=
  ∃ t j,
    t ∈ db.tasks ∧ j ∈ db.jobs ∧ j.id = t.job_id
    ∧ t.status = 'R'
    ∧ j.archived = 0
    ∧ node.min_priority < t.priority
    ∧ j.attempts < j.max_attempts
    ∧ ¬ containsSeq node.host.data j.failed_nodes.data
    ∧ sqlLike j.requirements.data node.capabilities.data = true
    ∧ (∀ c ∈ join_candidates db node,
        c.1.priority < t.priority ∨ (c.1.priority = t.priority ∧ t.id ≤ c.1.id))
    ∧ t' = { t with status := 'S', host := some node.host, start_time := some now }
    ∧ j' = { j with status := 'S' }
    ∧ (find_render_task db node now).2.2 = { node with status := 'S', task_id := some t.id }
    ∧ (find_render_task db node now).2.1.tasks
        = db.tasks.map (fun r => if r.id == t.id then t' else r)
    ∧ (find_render_task db node now).2.1.jobs
        = db.jobs.map (fun r => if r.id == j.id then j' else r)

/-! ## The remote kill: `HydraRenderTask.kill` -/

/-- The local finalization block of `HydraRenderTask.kill`: task `status`
becomes `new_status`, `exit_code = 1`, `end_time = now()`. -/
def mark_dead_task (task : TaskRow) (new_status : Char) (now : Int) : TaskRow :=
  { task with status := new_status, exit_code := some 1, end_time := some now }

/-- `HydraRenderTask.kill`.  `response` is the `HydraResponse` that
`send_kill_question` returns for the TCP exchange (`send_request` always
returns a response object, never `None`).  `HydraResponse` defines neither
`__bool__` nor `__len__`, so the object is always truthy in Python: after a
TCP exchange with a matching node the statement `if killed: return
killed.err` always returns, and the mark-as-dead block below it is never
reached on that path.  Returns (Python return value, task row, node row). -/
def task_kill (task : TaskRow) (node : NodeRow) (new_status : Char) (tcp_kill : Bool)
    (response : HydraResponse) (now : Int) : JVal × TaskRow × NodeRow :=
  if task.status = 'S' then
    if tcp_kill && node.task_id != some task.id then
      -- "Node is not running the given task! Marking as dead." (update_node = False)
      (.bool true, mark_dead_task task new_status now, node)
    else if tcp_kill then
      -- killed = self.send_kill_question(new_status); a response object is always truthy
      (response.err, task, node)
    else
      (.bool true, mark_dead_task task new_status now,
        { node with status := if node.status = 'S' then 'I' else 'O', task_id := none })
  else
    (.bool true, task, node)

/-! ## Worker completion: `RenderTCPServer.launch_render_task` (after the child exits) -/

/-- The completion block of `RenderTCPServer.launch_render_task`, from
`task.end_time = datetime.datetime.now()` on.  `child_started` is whether
`self.child_process` is set (the `Popen` call succeeded), `returncode` its
exit code, `child_killed` the worker's kill flag.  `node` is this node's row
as re-fetched by `get_this_node`, `sibling_statuses` the job's task statuses
as seen by `update_job_status`.  Returns the updated (task, job, node). -/
def launch_render_task_completion (child_started : Bool) (returncode : Int)
    (child_killed : Int) (task : TaskRow) (job : JobRow) (sibling_statuses : List Char)
    (node : NodeRow) (now : Int) : TaskRow × JobRow × NodeRow :=
  let exit_code : Int :=
    if child_started then (if child_killed == 0 then returncode else -1) else -1234
  let task := { task with end_time := some now, exit_code := some exit_code }
  let task :=
    if exit_code == 0 then
      { task with status := 'F', mpf := task.start_time.map (fun st => now - st) }
    else
      { task with status := 'R' }
  let failed_node : Option String :=
    if exit_code != 0 && child_killed == 0 then some node.host else none
  let mpf : Option ℚ :=
    if exit_code == 0 then task.mpf.map (fun m => (m : ℚ)) else none
  let job := update_job_status job sibling_statuses failed_node mpf
  let node := { node with
    task_id := none
    status := if node.status = 'P' then 'O' else 'I' }
  (task, job, node)

/-- The task exit code as the claim words it, first condition first: `-1` if
the worker marked the child killed, `-1234` if the child never started,
otherwise the child's exit code. -/
def exit_code_claimed (child_started : Bool) (returncode child_killed : Int) : Int :=
  if child_killed ≠ 0 then -1
  else if !child_started then -1234
  else returncode

/-! ## Concrete fixtures used by closed theorems and witnesses -/

/-- A handle holding a stale populated column (used against `refresh`). -/
def c6Handle : Handle :=
  { columns := ["id", "status"], attrs := [("id", .int 1), ("status", .str "S")], dirty := [] }

/-- The database's current image of `c6Handle`'s row: `status` changed. -/
def c6Row : List (String × PyVal) := [("id", .int 1), ("status", .str "R")]

/-- A STARTED task assigned to node `nodeA` (used against `task.kill`). -/
def c1Task : TaskRow :=
  { id := 7, job_id := 1, status := 'S', priority := 50, host := some "nodeA",
    start_time := some 100, end_time := none, exit_code := none, mpf := none }

/-- `nodeA`, STARTED and running task 7 (so `node.task_id` matches). -/
def c1Node : NodeRow :=
  { id := 1, host := "nodeA", status := 'S', min_priority := 0, capabilities := "",
    task_id := some 7 }

/-- The timeout response `send_request` synthesizes: `err = True`. -/
def c1Response : HydraResponse := { msg := .str "TimeoutError", err := .bool true }

/-- A task and job used for the worker-completion counterexample. -/
def c4Task : TaskRow :=
  { id := 3, job_id := 1, status := 'S', priority := 50, host := some "nodeA",
    start_time := some 100, end_time := none, exit_code := none, mpf := none }

/-- The parent job of `c4Task`. -/
def c4Job : JobRow :=
  { id := 1, status := 'S', attempts := 0, max_attempts := 2, failed_nodes := "",
    requirements := "%", archived := 0, max_nodes := 1, task_done := 0, mpf := none }

/-- The worker's node row at completion time. -/
def c4Node : NodeRow :=
  { id := 1, host := "nodeA", status := 'S', min_priority := 0, capabilities := "maya",
    task_id := some 3 }

/-- A READY task visible to the dispatch query. -/
def c2Task : TaskRow :=
  { id := 3, job_id := 1, status := 'R', priority := 50, host := none,
    start_time := none, end_time := none, exit_code := none, mpf := none }

/-- The owning job of `c2Task`: unarchived, attempts below the cap, a
wildcard requirements pattern, and a failed-nodes list naming another host. -/
def c2Job : JobRow :=
  { id := 1, status := 'R', attempts := 0, max_attempts := 2, failed_nodes := "nodeB ",
    requirements := "%", archived := 0, max_nodes := 1, task_done := 0, mpf := none }

/-- An idle node whose `min_priority` lies below the task's priority. -/
def c2Node : NodeRow :=
  { id := 1, host := "nodeA", status := 'I', min_priority := 10, capabilities := "maya",
    task_id := none }

/-- The one-task database for the C2 witness. -/
def c2DB : FarmDB := { tasks := [c2Task], jobs := [c2Job] }

/-! # Theorems -/

/-! ## Properties of `tails`, `sqlLike` and the candidate ordering -/

/-- Membership in `tails` is exactly being a tail segment. -/
theorem mem_tails (s t : List Char) : t ∈ tails s ↔ ∃ l, s = l ++ t := by
  induction s with
  | nil =>
    simp only [tails, List.mem_singleton]
    constructor
    · rintro rfl; exact ⟨[], rfl⟩
    · rintro ⟨l, hl⟩
      rcases List.append_eq_nil.mp hl.symm with ⟨-, rfl⟩
      rfl
  | cons c s ih =>
    simp only [tails, List.mem_cons, ih]
    constructor
    · rintro (rfl | ⟨l, rfl⟩)
      · exact ⟨[], rfl⟩
      · exact ⟨c :: l, rfl⟩
    · rintro ⟨l, hl⟩
      cases l with
      | nil => exact Or.inl (by simpa using hl.symm)
      | cons x l =>
        obtain ⟨rfl, hs⟩ : x = c ∧ s = l ++ t := by
          have := hl
          simp only [List.cons_append, List.cons.injEq] at this
          exact ⟨this.1.symm, this.2⟩
        exact Or.inr ⟨l, hs⟩

/-- A leading `%` matches exactly the splits into a discarded front and a
tail matched by the rest of the pattern. -/
theorem sqlLike_pct_iff (q s : List Char) :
    sqlLike ('%' :: q) s = true ↔ ∃ l t, s = l ++ t ∧ sqlLike q t = true := by
  have h : sqlLike ('%' :: q) s = (tails s).any (fun t => sqlLike q t) := by
    simp [sqlLike]
  rw [h, List.any_eq_true]
  constructor
  · rintro ⟨t, ht, hq⟩
    obtain ⟨l, rfl⟩ := (mem_tails s t).mp ht
    exact ⟨l, t, rfl, hq⟩
  · rintro ⟨l, t, rfl, hq⟩
    exact ⟨t, (mem_tails _ t).mpr ⟨l, rfl⟩, hq⟩

/-- A wildcard-free pattern followed by a single `%` matches exactly the
strings it begins. -/
theorem sqlLike_append_pct (p : List Char) (hp : wildcardFree p) (s : List Char) :
    sqlLike (p ++ ['%']) s = true ↔ beginsWith p s := by
  induction p generalizing s with
  | nil =>
    have h : sqlLike ['%'] s = true :=
      (sqlLike_pct_iff [] s).mpr ⟨s, [], by simp, rfl⟩
    simpa [h] using ⟨s, rfl⟩
  | cons c p ih =>
    have hc : c ≠ '%' ∧ c ≠ '_' := hp c (List.mem_cons_self c p)
    have hp' : wildcardFree p := fun x hx => hp x (List.mem_cons_of_mem c hx)
    cases s with
    | nil =>
      rw [List.cons_append]
      constructor
      · intro h
        simp [sqlLike, hc.1] at h
      · rintro ⟨t, ht⟩
        exact absurd ht.symm (by simp)
    | cons d s' =>
      rw [List.cons_append]
      have hstep : sqlLike (c :: (p ++ ['%'])) (d :: s')
          = ((c == '_' || c == d) && sqlLike (p ++ ['%']) s') := by
        simp [sqlLike, hc.1]
      rw [hstep]
      simp only [Bool.and_eq_true, Bool.or_eq_true, beq_iff_eq, hc.2, false_or]
      rw [ih hp']
      constructor
      · rintro ⟨rfl, t, rfl⟩
        exact ⟨t, rfl⟩
      · rintro ⟨t, ht⟩
        simp only [List.cons_append, List.cons.injEq] at ht
        exact ⟨ht.1.symm, t, ht.2⟩

/-- `LIKE '%<needle>%'` with a wildcard-free needle is exactly substring
containment. -/
theorem likeContains_iff (needle hay : String) (h : wildcardFree needle.data) :
    likeContains needle hay = true ↔ containsSeq needle.data hay.data := by
  rw [likeContains, sqlLike_pct_iff]
  constructor
  · rintro ⟨l, t, hsplit, ht⟩
    obtain ⟨r, hr⟩ := (sqlLike_append_pct needle.data h t).mp ht
    exact ⟨l, r, by rw [hsplit, hr]⟩
  · rintro ⟨l, r, hs⟩
    exact ⟨l, needle.data ++ r, hs,
      (sqlLike_append_pct needle.data h (needle.data ++ r)).mpr ⟨r, rfl⟩⟩

/-- The candidate order, written out. -/
theorem order_lt_flat (c a : TaskRow × JobRow) :
    order_lt c a = true
      ↔ (a.1.priority < c.1.priority
          ∨ (c.1.priority = a.1.priority ∧ c.1.id < a.1.id)) := by
  simp [order_lt]

/-- Strict precedence chains. -/
theorem order_lt_chain {a b c : TaskRow × JobRow} (h1 : order_lt a b = true)
    (h2 : order_lt b c = true) : order_lt a c = true := by
  rw [order_lt_flat] at h1 h2 ⊢
  omega

/-- Non-precedence chains. -/
theorem order_ge_chain {a b c : TaskRow × JobRow} (h1 : order_lt a b = false)
    (h2 : order_lt b c = false) : order_lt a c = false := by
  rw [← Bool.not_eq_true, order_lt_flat] at h1 h2 ⊢
  omega

/-- Scanning from a seed yields a seed-or-member that nothing in the scanned
list (nor the seed) strictly precedes. -/
theorem pick_first_spec (l : List (TaskRow × JobRow)) :
    ∀ a : TaskRow × JobRow,
      ∃ r, l.foldl pick_first (some a) = some r
        ∧ (r = a ∨ r ∈ l)
        ∧ order_lt a r = false
        ∧ ∀ x ∈ l, order_lt x r = false := by
  induction l with
  | nil =>
    intro a
    refine ⟨a, rfl, Or.inl rfl, ?_, by simp⟩
    rw [← Bool.not_eq_true, order_lt_flat]
    omega
  | cons c l ih =>
    intro a
    by_cases h : order_lt c a = true
    · obtain ⟨r, h1, h2, h3, h4⟩ := ih c
      refine ⟨r, ?_, ?_, ?_, ?_⟩
      · simpa [pick_first, h] using h1
      · rcases h2 with rfl | h2
        · exact Or.inr (List.mem_cons_self _ _)
        · exact Or.inr (List.mem_cons_of_mem _ h2)
      · cases hre : order_lt a r with
        | false => rfl
        | true => exact absurd (order_lt_chain h hre) (by simp [h3])
      · intro x hx
        rcases List.mem_cons.mp hx with rfl | hx
        · exact h3
        · exact h4 x hx
    · obtain ⟨r, h1, h2, h3, h4⟩ := ih a
      have hfalse : order_lt c a = false := by
        cases hc : order_lt c a
        · rfl
        · exact absurd hc h
      refine ⟨r, ?_, ?_, h3, ?_⟩
      · simpa [pick_first, h] using h1
      · rcases h2 with rfl | h2
        · exact Or.inl rfl
        · exact Or.inr (List.mem_cons_of_mem _ h2)
      · intro x hx
        rcases List.mem_cons.mp hx with rfl | hx
        · exact order_ge_chain hfalse h3
        · exact h4 x hx

/-- The selected row is a candidate that no candidate strictly precedes. -/
theorem select_first_spec {l : List (TaskRow × JobRow)} {r : TaskRow × JobRow}
    (h : select_first l = some r) :
    r ∈ l ∧ ∀ x ∈ l, order_lt x r = false := by
  cases l with
  | nil => simp [select_first] at h
  | cons c l =>
    obtain ⟨r', h1, h2, h3, h4⟩ := pick_first_spec l c
    have hsel : select_first (c :: l) = some r' := by
      simpa [select_first, pick_first] using h1
    have hrr : r' = r := by
      rw [hsel] at h
      exact (Option.some.injEq _ _).mp h
    subst hrr
    refine ⟨?_, ?_⟩
    · rcases h2 with rfl | h2
      · exact List.mem_cons_self _ _
      · exact List.mem_cons_of_mem _ h2
    · intro x hx
      rcases List.mem_cons.mp hx with rfl | hx
      · exact h3
      · exact h4 x hx

/-- Unpacking membership in the joined, filtered candidate list. -/
theorem join_candidates_mem {db : FarmDB} {node : NodeRow} {c : TaskRow × JobRow}
    (h : c ∈ join_candidates db node) :
    c.1 ∈ db.tasks ∧ c.2 ∈ db.jobs ∧ c.2.id = c.1.job_id
      ∧ claim_filter node c.1 c.2 = true := by
  obtain ⟨t, ht, hc⟩ := List.mem_flatMap.mp h
  obtain ⟨j, hj, hcf⟩ := List.mem_filterMap.mp hc
  obtain ⟨hjmem, hjid⟩ := List.mem_filter.mp hj
  have hfil : claim_filter node t j = true ∧ c = (t, j) := by
    by_cases hb : claim_filter node t j = true
    · refine ⟨hb, ?_⟩
      rw [if_pos hb] at hcf
      exact ((Option.some.injEq _ _).mp hcf).symm
    · rw [if_neg hb] at hcf
      exact absurd hcf (by simp)
  obtain ⟨hb, rfl⟩ := hfil
  exact ⟨ht, hjmem, by simpa using hjid, hb⟩

/-- Unpacking the claim query's WHERE clause. -/
theorem claim_filter_spec {node : NodeRow} {t : TaskRow} {j : JobRow}
    (h : claim_filter node t j = true) :
    t.status = 'R' ∧ j.archived = 0 ∧ node.min_priority < t.priority
      ∧ j.attempts < j.max_attempts
      ∧ likeContains node.host j.failed_nodes = false
      ∧ sqlLike j.requirements.data node.capabilities.data = true := by
  simp only [claim_filter, Bool.and_eq_true, beq_iff_eq, decide_eq_true_eq,
    Bool.not_eq_true'] at h
  tauto

/-- C3: after `update_job_status` completes, the job's status equals the
first matching rule of the stated precedence, evaluated at the job's
post-call attempt counters: `attempts ≥ max_attempts` gives ERROR, else all
siblings FINISHED gives FINISHED, else any STARTED, any READY, any ERROR,
otherwise PAUSED; in particular a job with `attempts ≥ max_attempts` ends in
ERROR whatever the task statuses are. -/
theorem update_job_status_matches_precedence (job : JobRow) (ts : List Char)
    (fn : Option String) (m : Option ℚ) :
    (update_job_status job ts fn m).status
        = job_status_claimed (update_job_status job ts fn m).attempts
            (update_job_status job ts fn m).max_attempts ts
      ∧ ((update_job_status job ts fn m).attempts
            ≥ (update_job_status job ts fn m).max_attempts
          → (update_job_status job ts fn m).status = 'E') := by
  refine ⟨?_, ?_⟩ <;>
    cases fn <;>
      simp only [update_job_status, job_status_claimed] <;>
        intros <;> simp_all

/-- Witness for C3 at a concrete job: one failed node pushes `attempts` to
`max_attempts` and the status to ERROR. -/
theorem update_job_status_matches_precedence_witness :
    (update_job_status c4Job ['R', 'F'] (some "nodeA") none).status
        = job_status_claimed (update_job_status c4Job ['R', 'F'] (some "nodeA") none).attempts
            (update_job_status c4Job ['R', 'F'] (some "nodeA") none).max_attempts ['R', 'F'] :=
  (update_job_status_matches_precedence c4Job ['R', 'F'] (some "nodeA") none).1

/-- C5 (code bug): when neither the parent nor the children can be killed,
`kill_current_task` returns `1 → -1 → -1 + (-10) = -11`, not the `-10` its
own docstring and the claim state; the other three cases match the claim. -/
theorem kill_current_task_both_alive_returns_minus_eleven :
    kill_current_task true true false false = -11
      ∧ kill_return_claimed false false = -10
      ∧ kill_current_task true true true true = 1
      ∧ kill_current_task true true false true = -1
      ∧ kill_current_task true true true false = -9
      ∧ kill_current_task false false false false = 1 := by decide

/-- C8 counterexample: `archive(2)` stores `2` in the `archived` column
because ints bypass the truthy-string rule, while the claim says any value
whose string form does not start with t/T stores `0`. -/
theorem archive_int_counterexample :
    archive_stored (.int 2) = .int 2
      ∧ archive_claimed (.int 2) = 0
      ∧ PyArg.int 2 ≠ PyArg.int 0 := by decide

/-- C8 (amended): non-int values follow the truthy-string rule — `1` exactly
when the string form starts with t/T, else `0` — while ints and bools are
stored unchanged. -/
theorem archive_amended :
    (∀ s : String, archive_stored (.str s) = .int (archive_claimed (.str s)))
      ∧ (∀ n : Int, archive_stored (.int n) = .int n)
      ∧ (∀ b : Bool, archive_stored (.bool b) = .bool b) := by
  refine ⟨fun s => ?_, fun n => rfl, fun b => ?_⟩
  · simp only [archive_stored, archive_claimed, PyArg.isInt, Bool.false_eq_true, if_false]
    split <;> rfl
  · cases b <;> rfl

/-- C9: `err = True` is the fail-closed default — a decoded response whose
JSON object lacks an `err` key gets `err = True`, `from_args` with `err`
omitted gets `err = True`, and the synthesized TimeoutError, EOF Error, and
Socket Error responses of `send_request` all carry `err = True`. -/
theorem response_err_defaults_true (d : List (String × JVal)) (m : Option JVal)
    (hd : d.lookup "err" = none) :
    (HydraResponse.from_bytes d).err = .bool true
      ∧ (HydraResponse.from_args m none).err = .bool true
      ∧ send_request .connect_timeout = { msg := .str "TimeoutError", err := .bool true }
      ∧ send_request .reply_eof = { msg := .str "EOF Error", err := .bool true }
      ∧ send_request .socket_error = { msg := .str "Socket Error", err := .bool true } := by
  refine ⟨?_, rfl, rfl, rfl, rfl⟩
  simp [HydraResponse.from_bytes, hd]

/-- Witness for C9 at a concrete object that has a `msg` but no `err` key. -/
theorem response_err_defaults_true_witness :
    ([("msg", JVal.str "ok")] : List (String × JVal)).lookup "err" = none
      ∧ (HydraResponse.from_bytes [("msg", JVal.str "ok")]).err = .bool true :=
  ⟨by decide, (response_err_defaults_true [("msg", JVal.str "ok")] none (by decide)).1⟩

/-- C10: any Enum assigned through `__setattr__` or written through
`update_attr` is replaced by its underlying value before being stored; the
stored form is the one-character status string, both on the handle and in
the database row. -/
theorem enum_values_stored_as_code (h : Handle) (k : String) (e : HydraStatus)
    (dbrow : List (String × PyVal)) (hk : k ∈ h.columns) :
    (h.setattr k (.enum e)).attrs.lookup k = some (.str e.valueStr)
      ∧ (h.updateAttr dbrow k (.enum e)).2.2.lookup k = some (.str e.valueStr)
      ∧ (h.updateAttr dbrow k (.enum e)).2.1.attrs.lookup k = some (.str e.valueStr)
      ∧ e.valueStr.length = 1 := by
  have hset : ∀ h' : Handle, (h'.setattr k (.enum e)).attrs.lookup k = some (.str e.valueStr) := by
    intro h'
    simp [Handle.setattr, dictSet, coerceEnum, List.lookup]
  refine ⟨hset h, ?_, ?_, ?_⟩
  · simp [Handle.updateAttr, hk, dictSet, coerceEnum, List.lookup]
  · simp only [Handle.updateAttr, hk, if_pos, Handle.setNoDirty]
    exact hset h
  · cases e <;> rfl

/-- Witness for C10 on a concrete handle whose column set contains the key. -/
theorem enum_values_stored_as_code_witness :
    "status" ∈ c6Handle.columns
      ∧ (c6Handle.setattr "status" (.enum .killed)).attrs.lookup "status"
          = some (.str HydraStatus.killed.valueStr) :=
  ⟨by decide,
    (enum_values_stored_as_code c6Handle "status" .killed [] (by decide)).1⟩

/-- C6 (code bug): `refresh` with no explicit column request re-reads only
the primary key, so a populated column whose database value changed keeps
its stale value on the handle; the specification's described behaviour
(`Handle.refreshClaimed`) would re-read it. -/
theorem refresh_rereads_only_primary_key :
    (c6Handle.refresh "id" c6Row).attrs.lookup "status" = some (.str "S")
      ∧ (c6Handle.refreshClaimed c6Row).attrs.lookup "status" = some (.str "R")
      ∧ c6Row.lookup "status" = some (.str "R") := by decide

/-- C1 (code bug): a STARTED task killed over TCP against the node that is
running it, where the exchange yields the synthesized TimeoutError response
(`err = True`): `task.kill` returns `killed.err` and performs none of the
claimed local finalization — the task keeps `status = 'S'` and an empty
`exit_code`/`end_time`, and the node keeps its `task_id` and status. -/
theorem task_kill_tcp_error_skips_finalization :
    task_kill c1Task c1Node 'K' true c1Response 200 = (.bool true, c1Task, c1Node)
      ∧ c1Response.err = .bool true
      ∧ c1Task.status = 'S'
      ∧ c1Task.exit_code = none
      ∧ c1Task.end_time = none
      ∧ c1Node.task_id = some 7
      ∧ c1Node.status = 'S' := by decide

/-- C4 counterexample: with the child never started but the kill flag set
(reachable when a TCP kill lands while `Popen` is failing), the code records
`-1234` while the claim's first-listed rule records `-1`. -/
theorem completion_exit_code_counterexample :
    (launch_render_task_completion false 0 1 c4Task c4Job ['R'] c4Node 300).1.exit_code
        = some (-1234)
      ∧ exit_code_claimed false 0 1 = -1
      ∧ (-1234 : Int) ≠ -1 := by decide

/-- C4 (amended): after the child exits, `exit_code` is `-1234` if the child
never started, else `-1` if the worker marked it killed, else the child's
exit code; `exit_code = 0` makes the task FINISHED with
`mpf = end_time - start_time`, anything else makes it READY; and the node's
`task_id` is cleared with its status becoming OFFLINE if it was PENDING,
otherwise IDLE. -/
theorem launch_render_task_completion_amended (child_started : Bool) (rc ck : Int)
    (task : TaskRow) (job : JobRow) (ts : List Char) (node : NodeRow) (now st : Int)
    (hst : task.start_time = some st) :
    (launch_render_task_completion child_started rc ck task job ts node now).1.exit_code
        = some (if !child_started then -1234 else if ck ≠ 0 then -1 else rc)
      ∧ (launch_render_task_completion child_started rc ck task job ts node now).1.end_time
          = some now
      ∧ ((if !child_started then -1234 else if ck ≠ 0 then -1 else rc) = 0
          → (launch_render_task_completion child_started rc ck task job ts node now).1.status = 'F'
            ∧ (launch_render_task_completion child_started rc ck task job ts node now).1.mpf
                = some (now - st))
      ∧ ((if !child_started then -1234 else if ck ≠ 0 then -1 else rc) ≠ 0
          → (launch_render_task_completion child_started rc ck task job ts node now).1.status = 'R'
            ∧ (launch_render_task_completion child_started rc ck task job ts node now).1.mpf
                = task.mpf)
      ∧ (launch_render_task_completion child_started rc ck task job ts node now).2.2.task_id
          = none
      ∧ (launch_render_task_completion child_started rc ck task job ts node now).2.2.status
          = (if node.status = 'P' then 'O' else 'I') := by
  have hcode : (if child_started then (if ck == 0 then rc else -1) else -1234)
      = (if !child_started then -1234 else if ck ≠ 0 then -1 else rc) := by
    cases child_started <;> by_cases hck : ck = 0 <;> simp [hck]
  cases child_started <;> by_cases hck : ck = 0 <;>
    by_cases hrc : rc = 0 <;>
      simp_all [launch_render_task_completion, hst]

/-- Witness for C4 (amended): a clean exit 0 after 120 seconds finishes the
task with `mpf = 120` and idles the node. -/
theorem launch_render_task_completion_amended_witness :
    c4Task.start_time = some 100
      ∧ (launch_render_task_completion true 0 0 c4Task c4Job ['R'] c4Node 220).1.exit_code
          = some (if !true then -1234 else if (0 : Int) ≠ 0 then -1 else 0) :=
  ⟨rfl, (launch_render_task_completion_amended true 0 0 c4Task c4Job ['R'] c4Node 220 100
    rfl).1⟩

/-- C7: on a running worker's control server (whose socket server has no
`handler` attribute, see `worker_server_handler`), an `echo` request is
answered with `msg` equal to its first argument and `err = False`, and any
unknown command is answered with `err = True` and an explanatory message. -/
theorem echo_and_unknown_cmd (req : HydraRequest) (a : JVal) (rest : List JVal)
    (hcmd : req.cmd = "echo") (hargs : req.args = a :: rest) :
    tcp_handle worker_server_handler req
        = some { msg := a, err := .bool false }
      ∧ (∀ req' : HydraRequest,
          req'.cmd ≠ "echo" → req'.cmd ≠ "kill_current_task" → req'.cmd ≠ "shutdown" →
            ∃ resp, tcp_handle worker_server_handler req' = some resp
              ∧ resp.err = .bool true ∧ resp.msg ≠ .str "") := by
  constructor
  · simp [tcp_handle, worker_server_handler, hcmd, hargs, HydraResponse.from_args]
  · intro req' h1 _ _
    refine ⟨HydraResponse.from_args (some (.str "_HydraSocketServer has no handler!")) none,
      ?_, rfl, by simp [HydraResponse.from_args]⟩
    simp [tcp_handle, worker_server_handler, h1]

/-- Witness for C7 at a concrete echo request. -/
theorem echo_and_unknown_cmd_witness :
    ({ cmd := "echo", args := [JVal.str "hi"], kwargs := [] } : HydraRequest).cmd = "echo"
      ∧ tcp_handle worker_server_handler { cmd := "echo", args := [JVal.str "hi"], kwargs := [] }
          = some { msg := JVal.str "hi", err := .bool false } :=
  ⟨rfl, (echo_and_unknown_cmd { cmd := "echo", args := [JVal.str "hi"], kwargs := [] }
    (JVal.str "hi") [] rfl rfl).1⟩

/-- C2: a successful dispatch claim returns a task satisfying every stated
filter — READY status, unarchived job, priority above the node's minimum,
attempts below the cap, the node's host absent from the job's failed-nodes
string, the node's capabilities matching the job's requirements LIKE
pattern — that no candidate precedes in the `priority DESC, id ASC` order;
and the task, its job, and the node are marked STARTED with `task.host`,
`task.start_time` and `node.task_id` assigned, inside the one claim
transaction.  The host is assumed wildcard-free, which makes the
`NOT LIKE '%<host>%'` filter coincide with substring containment. -/
theorem find_render_task_dispatch_claim (db : FarmDB) (node : NodeRow) (now : Int)
    (j' : JobRow) (t' : TaskRow)
    (hres : (find_render_task db node now).1 = some (j', t'))
    (hhost : wildcardFree node.host.data) :
    find_render_task_claim db node now j' t' := by
  cases hs : select_first (join_candidates db node) with
  | none =>
    rw [show (find_render_task db node now).1 = none by
      simp only [find_render_task, hs]] at hres
    exact absurd hres (by simp)
  | some tj =>
    obtain ⟨t, j⟩ := tj
    have hval : find_render_task db node now
        = (some ({ j with status := 'S' },
                 { t with status := 'S', host := some node.host, start_time := some now }),
           { tasks := db.tasks.map (fun r => if r.id == t.id then
                 { t with status := 'S', host := some node.host, start_time := some now }
               else r)
             jobs := db.jobs.map (fun r => if r.id == j.id then { j with status := 'S' }
               else r) },
           { node with status := 'S', task_id := some t.id }) := by
      simp only [find_render_task, hs]
    rw [hval] at hres
    simp only [Option.some.injEq, Prod.mk.injEq] at hres
    obtain ⟨hj'eq, ht'eq⟩ := hres
    obtain ⟨hmem, hmin⟩ := select_first_spec hs
    obtain ⟨ht, hj, hid, hcf⟩ := join_candidates_mem hmem
    obtain ⟨h1, h2, h3, h4, h5, h6⟩ := claim_filter_spec hcf
    have hnotcontain : ¬ containsSeq node.host.data j.failed_nodes.data := by
      rw [← likeContains_iff node.host j.failed_nodes hhost]
      simp [h5]
    have hopt : ∀ c ∈ join_candidates db node,
        c.1.priority < t.priority ∨ (c.1.priority = t.priority ∧ t.id ≤ c.1.id) := by
      intro c hc
      have hlt := hmin c hc
      rw [← Bool.not_eq_true, order_lt_flat] at hlt
      have hlt' : ¬ (t.priority < c.1.priority
          ∨ (c.1.priority = t.priority ∧ c.1.id < t.id)) := hlt
      omega
    refine ⟨t, j, ht, hj, hid, h1, h2, h3, h4, hnotcontain, h6, hopt,
      ht'eq.symm, hj'eq.symm, ?_, ?_, ?_⟩
    · rw [hval]
    · rw [hval, ht'eq]
    · rw [hval, hj'eq]

/-- Witness for C2: a concrete one-task database, a wildcard-free host, and
the dispatch claim applied to the returned rows. -/
theorem find_render_task_dispatch_claim_witness :
    (find_render_task c2DB c2Node 500).1
        = some ({ c2Job with status := 'S' },
            { c2Task with status := 'S', host := some c2Node.host, start_time := some 500 })
      ∧ wildcardFree c2Node.host.data
      ∧ find_render_task_claim c2DB c2Node 500
          { c2Job with status := 'S' }
          { c2Task with status := 'S', host := some c2Node.host, start_time := some 500 } :=
  ⟨by decide, by decide,
    find_render_task_dispatch_claim c2DB c2Node 500
      { c2Job with status := 'S' }
      { c2Task with status := 'S', host := some c2Node.host, start_time := some 500 }
      (by decide) (by decide)⟩

end HydraFarm
